import Mathlib

/-!
Verification of the season-list resolver pipeline of the NHL player-bios
ingestion Lambda (`src/app.py`).

The Python data values flowing through the resolver are modelled by the
inductive type `PyVal` (JSON-decodable values plus the boto3 payload
`StreamingBody`, modelled as its byte contents).  Python functions that can
raise are modelled as `Except PyErr _`; a Python `return None` is the value
`PyVal.none` inside `Except.ok`.

Modelling notes for external library calls:
* `json.loads` is modelled by `jsonLoads`, a strict JSON parser producing
  `PyVal`.  JSON numbers are modelled as integers only (no floats in any
  payload of interest); `\uXXXX` escapes for surrogate halves are rejected.
* `bytes.decode("utf-8")` is modelled by `utf8Decode`, a strict UTF-8
  decoder rejecting invalid start bytes, truncated sequences, overlong
  encodings, surrogates and code points above 0x10FFFF.
* `json.dumps` is modelled by `jsonDumps` (separator whitespace omitted;
  only the control flow of serialisation matters for the claims).
* boto3 `lambda.invoke`, `requests.get` and `s3.put_object` are external
  effects; `lambda_handler` takes their outcomes as parameters.
-/

/-- Python runtime values relevant to the resolver: `None`, booleans,
integers, strings, lists, dicts (association lists with string keys, keys
assumed distinct as in a Python dict), and the boto3 payload stream
(an object with a `read` method, carrying its byte contents). -/
inductive PyVal : Type where
  | none : PyVal
  | bool : Bool → PyVal
  | int : Int → PyVal
  | str : String → PyVal
  | list : List PyVal → PyVal
  | dict : List (String × PyVal) → PyVal
  | stream : List Nat → PyVal
deriving Repr

mutual

/-- Decidable equality on `PyVal` (written by hand because of the nested
occurrences of `PyVal` under `List`). -/
def PyVal.decEq : (a b : PyVal) → Decidable (a = b)
  | PyVal.none, PyVal.none => isTrue rfl
  | PyVal.bool a, PyVal.bool b =>
    if h : a = b then isTrue (by rw [h])
    else isFalse (by intro hc; cases hc; exact h rfl)
  | PyVal.int a, PyVal.int b =>
    if h : a = b then isTrue (by rw [h])
    else isFalse (by intro hc; cases hc; exact h rfl)
  | PyVal.str a, PyVal.str b =>
    if h : a = b then isTrue (by rw [h])
    else isFalse (by intro hc; cases hc; exact h rfl)
  | PyVal.list a, PyVal.list b =>
    match PyVal.decEqList a b with
    | isTrue h => isTrue (by rw [h])
    | isFalse h => isFalse (by intro hc; cases hc; exact h rfl)
  | PyVal.dict a, PyVal.dict b =>
    match PyVal.decEqFields a b with
    | isTrue h => isTrue (by rw [h])
    | isFalse h => isFalse (by intro hc; cases hc; exact h rfl)
  | PyVal.stream a, PyVal.stream b =>
    if h : a = b then isTrue (by rw [h])
    else isFalse (by intro hc; cases hc; exact h rfl)
  | PyVal.none, PyVal.bool _ => isFalse (by intro hc; cases hc)
  | PyVal.none, PyVal.int _ => isFalse (by intro hc; cases hc)
  | PyVal.none, PyVal.str _ => isFalse (by intro hc; cases hc)
  | PyVal.none, PyVal.list _ => isFalse (by intro hc; cases hc)
  | PyVal.none, PyVal.dict _ => isFalse (by intro hc; cases hc)
  | PyVal.none, PyVal.stream _ => isFalse (by intro hc; cases hc)
  | PyVal.bool _, PyVal.none => isFalse (by intro hc; cases hc)
  | PyVal.bool _, PyVal.int _ => isFalse (by intro hc; cases hc)
  | PyVal.bool _, PyVal.str _ => isFalse (by intro hc; cases hc)
  | PyVal.bool _, PyVal.list _ => isFalse (by intro hc; cases hc)
  | PyVal.bool _, PyVal.dict _ => isFalse (by intro hc; cases hc)
  | PyVal.bool _, PyVal.stream _ => isFalse (by intro hc; cases hc)
  | PyVal.int _, PyVal.none => isFalse (by intro hc; cases hc)
  | PyVal.int _, PyVal.bool _ => isFalse (by intro hc; cases hc)
  | PyVal.int _, PyVal.str _ => isFalse (by intro hc; cases hc)
  | PyVal.int _, PyVal.list _ => isFalse (by intro hc; cases hc)
  | PyVal.int _, PyVal.dict _ => isFalse (by intro hc; cases hc)
  | PyVal.int _, PyVal.stream _ => isFalse (by intro hc; cases hc)
  | PyVal.str _, PyVal.none => isFalse (by intro hc; cases hc)
  | PyVal.str _, PyVal.bool _ => isFalse (by intro hc; cases hc)
  | PyVal.str _, PyVal.int _ => isFalse (by intro hc; cases hc)
  | PyVal.str _, PyVal.list _ => isFalse (by intro hc; cases hc)
  | PyVal.str _, PyVal.dict _ => isFalse (by intro hc; cases hc)
  | PyVal.str _, PyVal.stream _ => isFalse (by intro hc; cases hc)
  | PyVal.list _, PyVal.none => isFalse (by intro hc; cases hc)
  | PyVal.list _, PyVal.bool _ => isFalse (by intro hc; cases hc)
  | PyVal.list _, PyVal.int _ => isFalse (by intro hc; cases hc)
  | PyVal.list _, PyVal.str _ => isFalse (by intro hc; cases hc)
  | PyVal.list _, PyVal.dict _ => isFalse (by intro hc; cases hc)
  | PyVal.list _, PyVal.stream _ => isFalse (by intro hc; cases hc)
  | PyVal.dict _, PyVal.none => isFalse (by intro hc; cases hc)
  | PyVal.dict _, PyVal.bool _ => isFalse (by intro hc; cases hc)
  | PyVal.dict _, PyVal.int _ => isFalse (by intro hc; cases hc)
  | PyVal.dict _, PyVal.str _ => isFalse (by intro hc; cases hc)
  | PyVal.dict _, PyVal.list _ => isFalse (by intro hc; cases hc)
  | PyVal.dict _, PyVal.stream _ => isFalse (by intro hc; cases hc)
  | PyVal.stream _, PyVal.none => isFalse (by intro hc; cases hc)
  | PyVal.stream _, PyVal.bool _ => isFalse (by intro hc; cases hc)
  | PyVal.stream _, PyVal.int _ => isFalse (by intro hc; cases hc)
  | PyVal.stream _, PyVal.str _ => isFalse (by intro hc; cases hc)
  | PyVal.stream _, PyVal.list _ => isFalse (by intro hc; cases hc)
  | PyVal.stream _, PyVal.dict _ => isFalse (by intro hc; cases hc)

/-- Decidable equality on lists of `PyVal`. -/
def PyVal.decEqList : (a b : List PyVal) → Decidable (a = b)
  | [], [] => isTrue rfl
  | [], _ :: _ => isFalse (by intro hc; cases hc)
  | _ :: _, [] => isFalse (by intro hc; cases hc)
  | x :: xs, y :: ys =>
    match PyVal.decEq x y with
    | isTrue h1 =>
      match PyVal.decEqList xs ys with
      | isTrue h2 => isTrue (by rw [h1, h2])
      | isFalse h2 => isFalse (by intro hc; cases hc; exact h2 rfl)
    | isFalse h1 => isFalse (by intro hc; cases hc; exact h1 rfl)

/-- Decidable equality on dict entry lists. -/
def PyVal.decEqFields : (a b : List (String × PyVal)) → Decidable (a = b)
  | [], [] => isTrue rfl
  | [], _ :: _ => isFalse (by intro hc; cases hc)
  | _ :: _, [] => isFalse (by intro hc; cases hc)
  | (k1, v1) :: xs, (k2, v2) :: ys =>
    if hk : k1 = k2 then
      match PyVal.decEq v1 v2 with
      | isTrue hv =>
        match PyVal.decEqFields xs ys with
        | isTrue h2 => isTrue (by rw [hk, hv, h2])
        | isFalse h2 => isFalse (by intro hc; cases hc; exact h2 rfl)
      | isFalse hv => isFalse (by intro hc; cases hc; exact hv rfl)
    else isFalse (by intro hc; cases hc; exact hk rfl)

end

instance : DecidableEq PyVal := PyVal.decEq

instance : BEq PyVal := ⟨fun a b => decide (a = b)⟩

instance (ε α : Type) [DecidableEq ε] [DecidableEq α] :
    DecidableEq (Except ε α) := fun a b =>
  match a, b with
  | Except.ok x, Except.ok y =>
    if h : x = y then isTrue (by rw [h])
    else isFalse (by intro hc; cases hc; exact h rfl)
  | Except.error x, Except.error y =>
    if h : x = y then isTrue (by rw [h])
    else isFalse (by intro hc; cases hc; exact h rfl)
  | Except.ok _, Except.error _ => isFalse (by intro hc; cases hc)
  | Except.error _, Except.ok _ => isFalse (by intro hc; cases hc)

/-- Python exceptions that the modelled code can raise. -/
inductive PyErr : Type where
  | attributeError : PyErr
  | typeError : PyErr
  | nameError : PyErr
deriving Repr, DecidableEq

/-- Python `dict.get(k)`: the value bound to `k`, or `None` when the key is
absent. -/
def dictGet (kvs : List (String × PyVal)) (k : String) : PyVal :=
  match kvs with
  | [] => PyVal.none
  | (k2, v) :: rest => if k2 = k then v else dictGet rest k

/-- Python `k in d` for a dict. -/
def dictContains (kvs : List (String × PyVal)) (k : String) : Bool :=
  kvs.any (fun kv => kv.1 == k)

/-- Python truthiness of a value (`bool(v)`). -/
def truthy : PyVal → Bool
  | PyVal.none => false
  | PyVal.bool b => b
  | PyVal.int n => n != 0
  | PyVal.str s => !s.isEmpty
  | PyVal.list xs => !xs.isEmpty
  | PyVal.dict kvs => !kvs.isEmpty
  | PyVal.stream _ => true

/-- Whether a byte is a UTF-8 continuation byte (0x80..0xBF). -/
def isContByte (b : Nat) : Bool := 0x80 ≤ b && b < 0xC0

/-- Strict UTF-8 decoding of a byte list into characters.  Rejects invalid
start bytes, truncated sequences, overlong encodings, surrogate code points
and code points above 0x10FFFF, exactly as Python `bytes.decode("utf-8")`
does in its default strict mode. -/
def utf8DecodeAux : List Nat → Option (List Char)
  | [] => some []
  | b :: rest =>
    if b < 0x80 then
      (utf8DecodeAux rest).map (fun cs => Char.ofNat b :: cs)
    else if b < 0xC0 then
      Option.none
    else if b < 0xE0 then
      match rest with
      | c1 :: rest1 =>
        if isContByte c1 then
          let cp := (b - 0xC0) * 0x40 + (c1 - 0x80)
          if 0x80 ≤ cp then
            (utf8DecodeAux rest1).map (fun cs => Char.ofNat cp :: cs)
          else Option.none
        else Option.none
      | [] => Option.none
    else if b < 0xF0 then
      match rest with
      | c1 :: c2 :: rest2 =>
        if isContByte c1 && isContByte c2 then
          let cp := (b - 0xE0) * 0x1000 + (c1 - 0x80) * 0x40 + (c2 - 0x80)
          if 0x800 ≤ cp && !(0xD800 ≤ cp && cp ≤ 0xDFFF) then
            (utf8DecodeAux rest2).map (fun cs => Char.ofNat cp :: cs)
          else Option.none
        else Option.none
      | _ => Option.none
    else if b < 0xF5 then
      match rest with
      | c1 :: c2 :: c3 :: rest3 =>
        if isContByte c1 && isContByte c2 && isContByte c3 then
          let cp := (b - 0xF0) * 0x40000 + (c1 - 0x80) * 0x1000 +
            (c2 - 0x80) * 0x40 + (c3 - 0x80)
          if 0x10000 ≤ cp && cp ≤ 0x10FFFF then
            (utf8DecodeAux rest3).map (fun cs => Char.ofNat cp :: cs)
          else Option.none
        else Option.none
      | _ => Option.none
    else Option.none

/-- Python `payload_bytes.decode("utf-8")`: `some` the decoded string or
`none` when a `UnicodeDecodeError` would be raised. -/
def utf8Decode (bs : List Nat) : Option String :=
  (utf8DecodeAux bs).map String.mk

/-- UTF-8 encoding of one character (used to build concrete payload bytes). -/
def utf8EncodeChar (c : Char) : List Nat :=
  let n := c.toNat
  if n < 0x80 then [n]
  else if n < 0x800 then [0xC0 + n / 0x40, 0x80 + n % 0x40]
  else if n < 0x10000 then
    [0xE0 + n / 0x1000, 0x80 + (n / 0x40) % 0x40, 0x80 + n % 0x40]
  else
    [0xF0 + n / 0x40000, 0x80 + (n / 0x1000) % 0x40,
      0x80 + (n / 0x40) % 0x40, 0x80 + n % 0x40]

/-- UTF-8 encoding of a string as a byte list. -/
def utf8Encode (s : String) : List Nat :=
  s.data.foldr (fun c acc => utf8EncodeChar c ++ acc) []

/-- Skip JSON insignificant whitespace. -/
def skipWs : List Char → List Char
  | [] => []
  | c :: cs =>
    if c = ' ' || c = '\t' || c = '\n' || c = '\r' then skipWs cs else c :: cs

/-- Value of a hexadecimal digit character. -/
def hexDigitVal (c : Char) : Option Nat :=
  if '0' ≤ c ∧ c ≤ '9' then some (c.toNat - 48)
  else if 'a' ≤ c ∧ c ≤ 'f' then some (c.toNat - 87)
  else if 'A' ≤ c ∧ c ≤ 'F' then some (c.toNat - 55)
  else Option.none

/-- Single-character JSON string escapes. -/
def escChar (c : Char) : Option Char :=
  if c = '"' || c = '\\' || c = '/' then some c
  else if c = 'n' then some '\n'
  else if c = 't' then some '\t'
  else if c = 'r' then some '\r'
  else if c = 'b' then some (Char.ofNat 8)
  else if c = 'f' then some (Char.ofNat 12)
  else Option.none

/-- Parse the remainder of a JSON string (the opening quote already
consumed), returning its characters and the rest of the input.  Raw control
characters are rejected, as in strict JSON. -/
def parseStringAux : List Char → Option (List Char × List Char)
  | [] => Option.none
  | c :: rest =>
    if c = '"' then some ([], rest)
    else if c = '\\' then
      match rest with
      | 'u' :: h1 :: h2 :: h3 :: h4 :: rest2 =>
        match hexDigitVal h1, hexDigitVal h2, hexDigitVal h3, hexDigitVal h4 with
        | some a, some b, some c3, some d =>
          let cp := a * 4096 + b * 256 + c3 * 16 + d
          if 0xD800 ≤ cp && cp ≤ 0xDFFF then Option.none
          else (parseStringAux rest2).map (fun p => (Char.ofNat cp :: p.1, p.2))
        | _, _, _, _ => Option.none
      | e :: rest2 =>
        match escChar e with
        | some ce => (parseStringAux rest2).map (fun p => (ce :: p.1, p.2))
        | Option.none => Option.none
      | [] => Option.none
    else if c.toNat < 0x20 then Option.none
    else (parseStringAux rest).map (fun p => (c :: p.1, p.2))

/-- Parse a JSON integer token whose digits start the input (`neg` records a
consumed minus sign).  Leading zeros are rejected; a following `.`, `e` or
`E` would start a float literal, which is outside this model, so it is
treated as a parse failure. -/
def parseIntToken (cs : List Char) (neg : Bool) : Option (PyVal × List Char) :=
  let p := cs.span (fun c => c.isDigit)
  match p.1 with
  | [] => Option.none
  | d :: ds =>
    if d = '0' && !ds.isEmpty then Option.none
    else
      let n : Nat := (d :: ds).foldl (fun a c => a * 10 + (c.toNat - 48)) 0
      let v := PyVal.int (if neg then -(n : Int) else (n : Int))
      match p.2 with
      | c :: _ =>
        if c = '.' || c = 'e' || c = 'E' then Option.none
        else some (v, p.2)
      | [] => some (v, p.2)

mutual

/-- Parse one JSON value from the input, fuel-bounded recursive descent. -/
def parseValue : Nat → List Char → Option (PyVal × List Char)
  | 0, _ => Option.none
  | fuel + 1, cs =>
    match skipWs cs with
    | [] => Option.none
    | c :: rest =>
      if c = '\x7b' then
        match skipWs rest with
        | c2 :: rest2 =>
          if c2 = '\x7d' then some (PyVal.dict [], rest2)
          else (parseMembers fuel (c2 :: rest2)).map (fun p => (PyVal.dict p.1, p.2))
        | [] => Option.none
      else if c = '[' then
        match skipWs rest with
        | c2 :: rest2 =>
          if c2 = ']' then some (PyVal.list [], rest2)
          else (parseElems fuel (c2 :: rest2)).map (fun p => (PyVal.list p.1, p.2))
        | [] => Option.none
      else if c = '"' then
        (parseStringAux rest).map (fun p => (PyVal.str (String.mk p.1), p.2))
      else if c = '-' then
        parseIntToken rest true
      else if c.isDigit then
        parseIntToken (c :: rest) false
      else
        match c :: rest with
        | 't' :: 'r' :: 'u' :: 'e' :: rest2 => some (PyVal.bool true, rest2)
        | 'f' :: 'a' :: 'l' :: 's' :: 'e' :: rest2 => some (PyVal.bool false, rest2)
        | 'n' :: 'u' :: 'l' :: 'l' :: rest2 => some (PyVal.none, rest2)
        | _ => Option.none

/-- Parse the elements of a non-empty JSON array up to and including the
closing bracket. -/
def parseElems : Nat → List Char → Option (List PyVal × List Char)
  | 0, _ => Option.none
  | fuel + 1, cs =>
    match parseValue fuel cs with
    | some (v, rest) =>
      match skipWs rest with
      | ',' :: rest2 => (parseElems fuel rest2).map (fun p => (v :: p.1, p.2))
      | ']' :: rest2 => some ([v], rest2)
      | _ => Option.none
    | Option.none => Option.none

/-- Parse the members of a non-empty JSON object up to and including the
closing brace. -/
def parseMembers : Nat → List Char → Option (List (String × PyVal) × List Char)
  | 0, _ => Option.none
  | fuel + 1, cs =>
    match skipWs cs with
    | '"' :: rest =>
      match parseStringAux rest with
      | some (key, rest2) =>
        match skipWs rest2 with
        | ':' :: rest3 =>
          match parseValue fuel rest3 with
          | some (v, rest4) =>
            match skipWs rest4 with
            | ',' :: rest5 =>
              (parseMembers fuel rest5).map
                (fun p => ((String.mk key, v) :: p.1, p.2))
            | '\x7d' :: rest5 => some ([(String.mk key, v)], rest5)
            | _ => Option.none
          | Option.none => Option.none
        | _ => Option.none
      | Option.none => Option.none
    | _ => Option.none

end

/-- Python `json.loads`: parse a complete JSON document (integers only for
numbers; see the module header for the modelling notes).  Returns `some`
value on success and `none` where Python raises `json.JSONDecodeError`. -/
def jsonLoads (s : String) : Option PyVal :=
  match parseValue (2 * s.length + 2) s.data with
  | some (v, rest) => if (skipWs rest).isEmpty then some v else Option.none
  | Option.none => Option.none

/-- JSON escaping of one character for `jsonDumps`. -/
def escapeJsonChar (c : Char) : String :=
  if c = '"' then "\\\""
  else if c = '\\' then "\\\\"
  else if c = '\n' then "\\n"
  else if c = '\r' then "\\r"
  else if c = '\t' then "\\t"
  else if c = Char.ofNat 8 then "\\b"
  else if c = Char.ofNat 12 then "\\f"
  else if c.toNat < 0x20 then
    let hex := fun (n : Nat) => String.mk [Char.ofNat (if n < 10 then 48 + n else 87 + n)]
    "\\u00" ++ hex (c.toNat / 16) ++ hex (c.toNat % 16)
  else String.mk [c]

/-- JSON escaping of a string for `jsonDumps`. -/
def escapeJsonStr (s : String) : String :=
  s.data.foldr (fun c acc => escapeJsonChar c ++ acc) ""

mutual

/-- Python `json.dumps` on the modelled values: `some` the serialised text,
or `none` where Python raises `TypeError` (non-serialisable object, here the
payload stream).  Separator whitespace is omitted; only the success or
failure of serialisation matters for the resolver claims. -/
def jsonDumps : PyVal → Option String
  | PyVal.none => some "null"
  | PyVal.bool b => some (if b then "true" else "false")
  | PyVal.int n => some (toString n)
  | PyVal.str s => some ("\"" ++ escapeJsonStr s ++ "\"")
  | PyVal.list xs => (jsonDumpsList xs).map (fun inner => "[" ++ inner ++ "]")
  | PyVal.dict kvs =>
    (jsonDumpsFields kvs).map (fun inner => "\x7b" ++ inner ++ "\x7d")
  | PyVal.stream _ => Option.none

/-- Serialise list elements, comma separated. -/
def jsonDumpsList : List PyVal → Option String
  | [] => some ""
  | [x] => jsonDumps x
  | x :: y :: rest =>
    match jsonDumps x, jsonDumpsList (y :: rest) with
    | some sx, some srest => some (sx ++ "," ++ srest)
    | _, _ => Option.none

/-- Serialise dict entries, comma separated. -/
def jsonDumpsFields : List (String × PyVal) → Option String
  | [] => some ""
  | [(k, v)] => (jsonDumps v).map (fun sv => "\"" ++ escapeJsonStr k ++ "\":" ++ sv)
  | (k, v) :: kv2 :: rest =>
    match jsonDumps v, jsonDumpsFields (kv2 :: rest) with
    | some sv, some srest =>
      some ("\"" ++ escapeJsonStr k ++ "\":" ++ sv ++ "," ++ srest)
    | _, _ => Option.none

end

/-- Python `str(v)` as used in the handler's f-strings.  Exact for the
scalar values that actually occur as season identifiers; the repr text of
containers is abbreviated (it only feeds log and result message strings,
which no claim inspects). -/
def pyStr : PyVal → String
  | PyVal.none => "None"
  | PyVal.bool b => if b then "True" else "False"
  | PyVal.int n => toString n
  | PyVal.str s => s
  | PyVal.list _ => "<list>"
  | PyVal.dict _ => "<dict>"
  | PyVal.stream _ => "<stream>"

/-- Shallow embedding of `parse_nhl_seasons_response` (src/app.py, lines
68-128): reads the payload stream of a boto3 invocation result, decodes it
as UTF-8, parses it as JSON, short-circuits on transport-level
`InvocationError`, passes a `FunctionError` payload through, and falls back
to the result itself when no readable payload stream is present.  Calling
`.get` on a non-dict argument raises `AttributeError` (line 85). -/
def parse_nhl_seasons_response (lambda_response : PyVal) : Except PyErr PyVal :=
  match lambda_response with
  | PyVal.dict kvs =>
    if truthy (dictGet kvs "InvocationError") then
      Except.ok PyVal.none
    else
      match dictGet kvs "Payload" with
      | PyVal.stream payload_bytes =>
        match utf8Decode payload_bytes with
        | Option.none => Except.ok PyVal.none
        | some payload_string =>
          if dictContains kvs "FunctionError" then
            match jsonLoads payload_string with
            | some v => Except.ok v
            | Option.none => Except.ok PyVal.none
          else
            match jsonLoads payload_string with
            | some v => Except.ok v
            | Option.none => Except.ok PyVal.none
      | _ => Except.ok (PyVal.dict kvs)
  | _ => Except.error PyErr.attributeError

/-- Shallow embedding of `parse_seasons_json` (src/app.py, lines 130-180):
returns `None` on `None` input, on a truthy `errorMessage`/`errorType`
pair, on a non-200 `statusCode`, and on an unparsable or non-string `body`;
returns `[]` for a 200 status with a missing or `None` body; otherwise
returns the JSON value parsed from `body`.  Calling `.get` on a non-dict,
non-`None` argument raises `AttributeError` (line 151). -/
def parse_seasons_json (parsed_lambda_output : PyVal) : Except PyErr PyVal :=
  match parsed_lambda_output with
  | PyVal.none => Except.ok PyVal.none
  | PyVal.dict kvs =>
    if truthy (dictGet kvs "errorMessage") && truthy (dictGet kvs "errorType") then
      Except.ok PyVal.none
    else if dictGet kvs "statusCode" == PyVal.int 200 then
      match dictGet kvs "body" with
      | PyVal.none => Except.ok (PyVal.list [])
      | PyVal.str s =>
        match jsonLoads s with
        | some v => Except.ok v
        | Option.none => Except.ok PyVal.none
      | _ => Except.ok PyVal.none
    else
      Except.ok PyVal.none
  | _ => Except.error PyErr.attributeError

/-- Python `for x in v` iteration: lists yield their elements, strings
their characters, dicts their keys; `None`, booleans and integers raise
`TypeError`.  The stream case never reaches the handler's loop and is
modelled as the non-iterable default. -/
def iterPy : PyVal → Except PyErr (List PyVal)
  | PyVal.list xs => Except.ok xs
  | PyVal.str s => Except.ok (s.data.map (fun c => PyVal.str (String.mk [c])))
  | PyVal.dict kvs => Except.ok (kvs.map (fun kv => PyVal.str kv.1))
  | _ => Except.error PyErr.typeError

/-- The `positions` list of the handler loop (src/app.py, line 233). -/
def positions : List String := ["skater", "goalie"]

/-- One iteration of the handler's inner loop body (src/app.py, lines
236-264): build the S3 key, fetch the bios document, serialise and upload
it, and produce the result message.  `fetch` stands for
`fetch_player_bios` and `s3put` for `s3.put_object` (external effects;
`s3put` returns `none` on success and `some msg` for a raised exception,
which the source catches). -/
def processPosition (fetch : PyVal → String → PyVal)
    (s3put : String → String → Option String)
    (season : PyVal) (position : String) : PyVal :=
  let file_name := position ++ "-bios-" ++ pyStr season ++ ".json"
  let s3_key := "nhl-player-bios/" ++ file_name
  let player_data := fetch season position
  if truthy player_data then
    match jsonDumps player_data with
    | some json_data =>
      match s3put s3_key json_data with
      | Option.none => PyVal.str ("Uploaded " ++ s3_key)
      | some e => PyVal.str ("Failed to upload " ++ s3_key ++ ": " ++ e)
    | Option.none =>
      PyVal.str ("Failed to upload " ++ s3_key ++ ": TypeError")
  else
    PyVal.str ("No data for " ++ file_name)

/-- Shallow embedding of `lambda_handler` (src/app.py, lines 216-273).
`lambda_response` is the outcome of `invoke_get_nhl_seasons()` (an external
boto3 call), `fetch` the outcome of `fetch_player_bios`, `s3put` the
outcome of `s3.put_object`.  The loop follows the source faithfully,
including the `results = []` reset inside the inner loop (so only the last
message survives) and the `NameError` at the final `return` when the season
loop never runs (the name `results` was then never assigned), modelled by
the accumulator starting at `Option.none`. -/
def lambda_handler (lambda_response : PyVal) (fetch : PyVal → String → PyVal)
    (s3put : String → String → Option String) : Except PyErr PyVal :=
  match parse_nhl_seasons_response lambda_response with
  | Except.error e => Except.error e
  | Except.ok parsed_lambda_output =>
    match parse_seasons_json parsed_lambda_output with
    | Except.error e => Except.error e
    | Except.ok seasons =>
      match iterPy seasons with
      | Except.error e => Except.error e
      | Except.ok seasonItems =>
        let results : Option (List PyVal) :=
          seasonItems.foldl
            (fun acc season =>
              positions.foldl
                (fun _ position => some [processPosition fetch s3put season position])
                acc)
            Option.none
        match results with
        | Option.none => Except.error PyErr.nameError
        | some rs =>
          match jsonDumps (PyVal.dict [("message", PyVal.str "Processing complete"),
              ("details", PyVal.list rs)]) with
          | some bodyStr =>
            Except.ok (PyVal.dict [("statusCode", PyVal.int 200),
              ("body", PyVal.str bodyStr)])
          | Option.none => Except.error PyErr.typeError

/-- Keys of the response envelope shape (spec section 6):
`statusCode`, optional `headers`, `body`. -/
def envelopeKeys : List String := ["statusCode", "headers", "body"]

/-- A well-formed envelope mapping: every key belongs to the envelope
shape (so in particular no fault-descriptor fields are present). -/
def isWellFormedEnvelope (kvs : List (String × PyVal)) : Bool :=
  kvs.all (fun kv => envelopeKeys.contains kv.1)

/-- A value that is a fully-formed mapping of the envelope shape: a dict
carrying at least the mandatory `statusCode` and `body` fields. -/
def isEnvelopeShaped : PyVal → Bool
  | PyVal.dict kvs => dictContains kvs "statusCode" && dictContains kvs "body"
  | _ => false

/-- Python `hasattr(v, "read")` on the modelled values: only the payload
stream object has a `read` method. -/
def hasReadAttr : PyVal → Bool
  | PyVal.stream _ => true
  | _ => false

theorem dictGet_eq_none_of_not_contains (kvs : List (String × PyVal))
    (k : String) (h : dictContains kvs k = false) : dictGet kvs k = PyVal.none := by
  induction kvs with
  | nil => rfl
  | cons kv rest ih =>
    simp only [dictContains, List.any_cons, Bool.or_eq_false_iff] at h
    obtain ⟨h1, h2⟩ := h
    simp only [dictGet]
    rw [if_neg, ih h2]
    intro hk
    rw [hk] at h1
    simp at h1

theorem dictGet_eq_none_of_wellFormed (kvs : List (String × PyVal))
    (h : isWellFormedEnvelope kvs = true) (k : String)
    (hk : envelopeKeys.contains k = false) : dictGet kvs k = PyVal.none := by
  induction kvs with
  | nil => rfl
  | cons kv rest ih =>
    simp only [isWellFormedEnvelope, List.all_cons, Bool.and_eq_true] at h
    obtain ⟨h1, h2⟩ := h
    simp only [dictGet]
    rw [if_neg, ih h2]
    intro hkk
    rw [hkk] at h1
    rw [h1] at hk
    cases hk

theorem pyBeq_refl (a : PyVal) : (a == a) = true := by
  show decide (a = a) = true
  exact decide_eq_true rfl

theorem pyBeq_false {a b : PyVal} (h : ¬a = b) : (a == b) = false := by
  show decide (a = b) = false
  exact decide_eq_false h

theorem psj_ok_of_status200_body (kvs : List (String × PyVal)) (s : String)
    (v : PyVal) (hwf : isWellFormedEnvelope kvs = true)
    (hsc : dictGet kvs "statusCode" = PyVal.int 200)
    (hb : dictGet kvs "body" = PyVal.str s)
    (hj : jsonLoads s = some v) :
    parse_seasons_json (PyVal.dict kvs) = Except.ok v := by
  have hM : dictGet kvs "errorMessage" = PyVal.none :=
    dictGet_eq_none_of_wellFormed kvs hwf "errorMessage" (by decide)
  simp [parse_seasons_json, hM, hsc, hb, hj, pyBeq_refl, truthy]

/-- C3: for every well-formed envelope mapping with `statusCode = 200` and
`body` a string parsing as a JSON array, `parse_seasons_json` returns
exactly that array, element order preserved. -/
theorem extractSeasonList_status200_array (kvs : List (String × PyVal))
    (s : String) (xs : List PyVal)
    (hwf : isWellFormedEnvelope kvs = true)
    (hsc : dictGet kvs "statusCode" = PyVal.int 200)
    (hb : dictGet kvs "body" = PyVal.str s)
    (hj : jsonLoads s = some (PyVal.list xs)) :
    parse_seasons_json (PyVal.dict kvs) = Except.ok (PyVal.list xs) :=
  psj_ok_of_status200_body kvs s (PyVal.list xs) hwf hsc hb hj

theorem extractSeasonList_status200_array_witness :
    parse_seasons_json (PyVal.dict [("statusCode", PyVal.int 200),
        ("body", PyVal.str "[20232024,20222023]")]) =
      Except.ok (PyVal.list [PyVal.int 20232024, PyVal.int 20222023]) :=
  extractSeasonList_status200_array _ _ _ (by decide) rfl rfl (by decide)

/-- C10: for an envelope with `statusCode = 200` and a `body` string that
parses as any JSON value, `parse_seasons_json` returns that parsed value
unchanged, with no validation of its type. -/
theorem extractSeasonList_status200_any_value (kvs : List (String × PyVal))
    (s : String) (v : PyVal)
    (hwf : isWellFormedEnvelope kvs = true)
    (hsc : dictGet kvs "statusCode" = PyVal.int 200)
    (hb : dictGet kvs "body" = PyVal.str s)
    (hj : jsonLoads s = some v) :
    parse_seasons_json (PyVal.dict kvs) = Except.ok v :=
  psj_ok_of_status200_body kvs s v hwf hsc hb hj

theorem extractSeasonList_status200_any_value_witness :
    parse_seasons_json (PyVal.dict [("statusCode", PyVal.int 200),
        ("body", PyVal.str "42")]) = Except.ok (PyVal.int 42) :=
  extractSeasonList_status200_any_value _ _ _ (by decide) rfl rfl (by decide)

/-- C5: for every well-formed envelope mapping with `statusCode = 200`
whose `body` field is missing or `None`, `parse_seasons_json` returns the
empty list, not absent. -/
theorem extractSeasonList_status200_missing_body (kvs : List (String × PyVal))
    (hwf : isWellFormedEnvelope kvs = true)
    (hsc : dictGet kvs "statusCode" = PyVal.int 200)
    (hb : dictGet kvs "body" = PyVal.none) :
    parse_seasons_json (PyVal.dict kvs) = Except.ok (PyVal.list []) := by
  have hM : dictGet kvs "errorMessage" = PyVal.none :=
    dictGet_eq_none_of_wellFormed kvs hwf "errorMessage" (by decide)
  simp [parse_seasons_json, hM, hsc, hb, pyBeq_refl, truthy]

theorem extractSeasonList_status200_missing_body_witness :
    parse_seasons_json (PyVal.dict [("statusCode", PyVal.int 200)]) =
      Except.ok (PyVal.list []) :=
  extractSeasonList_status200_missing_body _ (by decide) rfl rfl

/-- C6: for every envelope mapping that is not a fault descriptor (at least
one of `errorMessage`, `errorType` is not a key) and whose `statusCode` is
anything other than the integer 200, including missing, `parse_seasons_json`
returns absent regardless of the `body` content. -/
theorem extractSeasonList_non200_absent (kvs : List (String × PyVal))
    (hnf : dictContains kvs "errorMessage" = false ∨
      dictContains kvs "errorType" = false)
    (hsc : dictGet kvs "statusCode" ≠ PyVal.int 200) :
    parse_seasons_json (PyVal.dict kvs) = Except.ok PyVal.none := by
  have hbeq := pyBeq_false hsc
  rcases hnf with h | h
  · have hM := dictGet_eq_none_of_not_contains kvs "errorMessage" h
    simp [parse_seasons_json, hM, hbeq, truthy]
  · have hT := dictGet_eq_none_of_not_contains kvs "errorType" h
    simp [parse_seasons_json, hT, hbeq, truthy]

theorem extractSeasonList_non200_absent_witness :
    parse_seasons_json (PyVal.dict [("statusCode", PyVal.int 404),
        ("body", PyVal.str "[20232024]")]) = Except.ok PyVal.none :=
  extractSeasonList_non200_absent _ (Or.inl (by decide)) (by decide)

/-- C2 counterexample: an envelope that carries both an `errorMessage`
field and an `errorType` field, with the `errorMessage` value being the
empty (falsy) string, is not treated as a fault descriptor: with
`statusCode = 200` present, `parse_seasons_json` returns the parsed body
instead of the absent value the claim requires. -/
theorem extractSeasonList_fault_fields_counterexample :
    parse_seasons_json (PyVal.dict [("errorMessage", PyVal.str ""),
        ("errorType", PyVal.str "KeyError"), ("statusCode", PyVal.int 200),
        ("body", PyVal.str "[1]")]) = Except.ok (PyVal.list [PyVal.int 1]) ∧
    ¬ parse_seasons_json (PyVal.dict [("errorMessage", PyVal.str ""),
        ("errorType", PyVal.str "KeyError"), ("statusCode", PyVal.int 200),
        ("body", PyVal.str "[1]")]) = Except.ok PyVal.none := by
  constructor
  · decide
  · decide

/-- C2 (amended): for every envelope mapping whose `errorMessage` and
`errorType` fields are both truthy (as every genuine fault descriptor's
non-empty strings are), `parse_seasons_json` returns absent, even if a
`statusCode` key is also present. -/
theorem extractSeasonList_fault_descriptor_absent (kvs : List (String × PyVal))
    (hM : truthy (dictGet kvs "errorMessage") = true)
    (hT : truthy (dictGet kvs "errorType") = true) :
    parse_seasons_json (PyVal.dict kvs) = Except.ok PyVal.none := by
  simp [parse_seasons_json, hM, hT]

theorem extractSeasonList_fault_descriptor_absent_witness :
    parse_seasons_json (PyVal.dict [("errorMessage", PyVal.str "seasons"),
        ("errorType", PyVal.str "KeyError"), ("statusCode", PyVal.int 200)]) =
      Except.ok PyVal.none :=
  extractSeasonList_fault_descriptor_absent _ (by decide) (by decide)

/-- C7: for every successful invocation result (no transport failure) whose
payload stream yields bytes that are not valid UTF-8, or text that is not
valid JSON, `parse_nhl_seasons_response` returns absent without raising. -/
theorem unwrapEnvelope_decode_failure_absent (kvs : List (String × PyVal))
    (bs : List Nat)
    (hI : truthy (dictGet kvs "InvocationError") = false)
    (hP : dictGet kvs "Payload" = PyVal.stream bs)
    (hfail : utf8Decode bs = Option.none ∨
      ∃ s, utf8Decode bs = some s ∧ jsonLoads s = Option.none) :
    parse_nhl_seasons_response (PyVal.dict kvs) = Except.ok PyVal.none := by
  rcases hfail with hd | ⟨s, hd, hl⟩
  · simp [parse_nhl_seasons_response, hI, hP, hd]
  · simp [parse_nhl_seasons_response, hI, hP, hd, hl]

theorem unwrapEnvelope_decode_failure_absent_witness :
    parse_nhl_seasons_response (PyVal.dict [("Payload", PyVal.stream [0xFF])]) =
      Except.ok PyVal.none :=
  unwrapEnvelope_decode_failure_absent _ [0xFF] (by decide) rfl
    (Or.inl (by decide))

/-- C4: end-to-end, when the invocation succeeds with no `FunctionError`
marker and the payload stream decodes to the UTF-8 JSON text
`{"statusCode":200,"body":"[20232024,20222023]"}`, applying
`parse_nhl_seasons_response` and then `parse_seasons_json` yields the list
`[20232024, 20222023]`. -/
theorem pipeline_end_to_end_success :
    (parse_nhl_seasons_response (PyVal.dict [("StatusCode", PyVal.int 200),
        ("Payload", PyVal.stream (utf8Encode
          "\x7b\"statusCode\":200,\"body\":\"[20232024,20222023]\"\x7d"))])).bind
      parse_seasons_json =
    Except.ok (PyVal.list [PyVal.int 20232024, PyVal.int 20222023]) := by
  decide

/-- C1 counterexample: a successful invocation whose payload decodes to the
JSON array `[1,2]` (not a mapping) makes `parse_nhl_seasons_response`
return that list, and `parse_seasons_json` then raises `AttributeError` at
its first `.get` call, so an exception does cross the resolver's boundary. -/
theorem pipeline_nonmapping_payload_counterexample :
    parse_nhl_seasons_response
        (PyVal.dict [("Payload", PyVal.stream (utf8Encode "[1,2]"))]) =
      Except.ok (PyVal.list [PyVal.int 1, PyVal.int 2]) ∧
    parse_seasons_json (PyVal.list [PyVal.int 1, PyVal.int 2]) =
      Except.error PyErr.attributeError := by
  constructor
  · decide
  · decide

/-- C1 (amended): the composed resolver pipeline is total on mapping-shaped
results: `parse_nhl_seasons_response` always returns (never raises) on a
mapping argument, and `parse_seasons_json` always returns on every such
output that is `None` or a mapping — but not on non-mapping decoded
payloads, where it raises `AttributeError` (see the counterexample). -/
theorem pipeline_total_on_mappings :
    (∀ kvs : List (String × PyVal),
      ∃ v, parse_nhl_seasons_response (PyVal.dict kvs) = Except.ok v) ∧
    (∀ v : PyVal, (v = PyVal.none ∨ ∃ kvs, v = PyVal.dict kvs) →
      ∃ w, parse_seasons_json v = Except.ok w) := by
  constructor
  · intro kvs
    by_cases hI : truthy (dictGet kvs "InvocationError") = true
    · exact ⟨PyVal.none, by simp [parse_nhl_seasons_response, hI]⟩
    · rw [Bool.not_eq_true] at hI
      rcases hP : dictGet kvs "Payload" with _ | b | n | s | xs | ds | bs
      · exact ⟨PyVal.dict kvs, by simp [parse_nhl_seasons_response, hI, hP]⟩
      · exact ⟨PyVal.dict kvs, by simp [parse_nhl_seasons_response, hI, hP]⟩
      · exact ⟨PyVal.dict kvs, by simp [parse_nhl_seasons_response, hI, hP]⟩
      · exact ⟨PyVal.dict kvs, by simp [parse_nhl_seasons_response, hI, hP]⟩
      · exact ⟨PyVal.dict kvs, by simp [parse_nhl_seasons_response, hI, hP]⟩
      · exact ⟨PyVal.dict kvs, by simp [parse_nhl_seasons_response, hI, hP]⟩
      · rcases hd : utf8Decode bs with _ | s
        · exact ⟨PyVal.none, by simp [parse_nhl_seasons_response, hI, hP, hd]⟩
        · rcases hl : jsonLoads s with _ | v
          · exact ⟨PyVal.none,
              by simp [parse_nhl_seasons_response, hI, hP, hd, hl]⟩
          · exact ⟨v, by simp [parse_nhl_seasons_response, hI, hP, hd, hl]⟩
  · rintro v (rfl | ⟨kvs, rfl⟩)
    · exact ⟨PyVal.none, rfl⟩
    · by_cases hE : (truthy (dictGet kvs "errorMessage") &&
          truthy (dictGet kvs "errorType")) = true
      · exact ⟨PyVal.none, by simp [parse_seasons_json, hE]⟩
      · rw [Bool.not_eq_true] at hE
        by_cases hS : (dictGet kvs "statusCode" == PyVal.int 200) = true
        · rcases hB : dictGet kvs "body" with _ | b | n | s | xs | ds | bs
          · exact ⟨PyVal.list [], by simp [parse_seasons_json, hE, hS, hB]⟩
          · exact ⟨PyVal.none, by simp [parse_seasons_json, hE, hS, hB]⟩
          · exact ⟨PyVal.none, by simp [parse_seasons_json, hE, hS, hB]⟩
          · rcases hl : jsonLoads s with _ | w
            · exact ⟨PyVal.none, by simp [parse_seasons_json, hE, hS, hB, hl]⟩
            · exact ⟨w, by simp [parse_seasons_json, hE, hS, hB, hl]⟩
          · exact ⟨PyVal.none, by simp [parse_seasons_json, hE, hS, hB]⟩
          · exact ⟨PyVal.none, by simp [parse_seasons_json, hE, hS, hB]⟩
          · exact ⟨PyVal.none, by simp [parse_seasons_json, hE, hS, hB]⟩
        · rw [Bool.not_eq_true] at hS
          exact ⟨PyVal.none, by simp [parse_seasons_json, hE, hS]⟩

theorem pipeline_total_on_mappings_witness :
    (∃ v, parse_nhl_seasons_response
      (PyVal.dict [("InvocationError", PyVal.bool true)]) = Except.ok v) ∧
    (∃ w, parse_seasons_json PyVal.none = Except.ok w) :=
  ⟨pipeline_total_on_mappings.1 _,
   pipeline_total_on_mappings.2 PyVal.none (Or.inl rfl)⟩

/-- C8 counterexample: a mapping that is not of the envelope shape (no
`statusCode`, no `body`, no readable payload stream) is still returned as
the envelope by `parse_nhl_seasons_response` instead of the absent value
the claim requires, because the source's fallback only checks
`isinstance(lambda_response, dict)`. -/
theorem unwrapEnvelope_fallback_counterexample :
    parse_nhl_seasons_response (PyVal.dict [("foo", PyVal.int 1)]) =
      Except.ok (PyVal.dict [("foo", PyVal.int 1)]) ∧
    isEnvelopeShaped (PyVal.dict [("foo", PyVal.int 1)]) = false ∧
    ¬ parse_nhl_seasons_response (PyVal.dict [("foo", PyVal.int 1)]) =
      Except.ok PyVal.none := by
  refine ⟨by decide, by decide, by decide⟩

/-- C8 (amended): for every invocation result that is not a transport
failure and lacks a readable payload stream, if the result is a mapping it
is returned itself as the envelope regardless of its shape; the absent
fallback is unreachable for mappings, and a non-mapping result instead
raises `AttributeError` at the initial `.get` call. -/
theorem unwrapEnvelope_fallback_any_mapping :
    (∀ kvs : List (String × PyVal),
      truthy (dictGet kvs "InvocationError") = false →
      hasReadAttr (dictGet kvs "Payload") = false →
      parse_nhl_seasons_response (PyVal.dict kvs) =
        Except.ok (PyVal.dict kvs)) ∧
    (∀ r : PyVal, (∀ kvs : List (String × PyVal), r ≠ PyVal.dict kvs) →
      parse_nhl_seasons_response r = Except.error PyErr.attributeError) := by
  constructor
  · intro kvs hI hP
    cases hp : dictGet kvs "Payload"
    case stream bs => rw [hp] at hP; cases hP
    all_goals simp [parse_nhl_seasons_response, hI, hp]
  · intro r hr
    cases r
    case dict kvs => exact absurd rfl (hr kvs)
    all_goals rfl

theorem unwrapEnvelope_fallback_any_mapping_witness :
    parse_nhl_seasons_response (PyVal.dict [("statusCode", PyVal.int 200),
        ("body", PyVal.str "[]")]) =
      Except.ok (PyVal.dict [("statusCode", PyVal.int 200),
        ("body", PyVal.str "[]")]) ∧
    parse_nhl_seasons_response (PyVal.int 7) =
      Except.error PyErr.attributeError :=
  ⟨unwrapEnvelope_fallback_any_mapping.1 _ (by decide) (by decide),
   unwrapEnvelope_fallback_any_mapping.2 _ (fun kvs h => by cases h)⟩

/-- C9: when the resolver yields absent (`parse_seasons_json` returns
`None`), `lambda_handler` does not return its normal 200 response:
iterating over the absent seasons value raises `TypeError`, so the handler
fails with an exception instead of completing. -/
theorem lambda_handler_typeerror_on_absent_seasons (lambda_response : PyVal)
    (fetch : PyVal → String → PyVal) (s3put : String → String → Option String)
    (parsed : PyVal)
    (h1 : parse_nhl_seasons_response lambda_response = Except.ok parsed)
    (h2 : parse_seasons_json parsed = Except.ok PyVal.none) :
    lambda_handler lambda_response fetch s3put = Except.error PyErr.typeError := by
  simp [lambda_handler, h1, h2, iterPy]

theorem lambda_handler_typeerror_on_absent_seasons_witness :
    lambda_handler (PyVal.dict [("InvocationError", PyVal.bool true)])
      (fun _ _ => PyVal.none) (fun _ _ => Option.none) =
      Except.error PyErr.typeError :=
  lambda_handler_typeerror_on_absent_seasons _ _ _ PyVal.none
    (by decide) (by decide)
